import Mathlib

/-!
Shallow embedding of the token net-flow analysis core of
`analysis.py` (class `TokenFlowAnalyzer`): data preprocessing,
per-address inflow/outflow aggregation (`calculate_net_flows`),
the supply estimator fallback, and the address classifier
(`_classify_address_type`).  Machine floats of the source are
modelled as exact rationals; pandas NaN (missing / malformed
values after `to_numeric(errors='coerce')`) is modelled as
`Option.none`.
-/

namespace TokenFlow

/-- A raw transfer record as loaded into the dataframe, after the
`to_numeric` coercions of `_preprocess_data` (lines 84-87): a field
that was missing or non-numeric is `none` (pandas NaN). -/
structure TransferRecord where
  from_address : Option String
  to_address : Option String
  amount : Option ℚ
  token_decimals : Option ℤ
  value : Option ℚ
  trans_id : Option String
deriving Repr, DecidableEq

/-- Line 90: `actual_amount = amount / 10**token_decimals`; NaN
(`none`) when either operand is NaN. -/
def actual_amount (r : TransferRecord) : Option ℚ :=
  match r.amount, r.token_decimals with
  | some a, some d => some (a / (10 : ℚ) ^ d)
  | _, _ => none

/-- Line 156: `dropna(subset=['from_address','to_address','amount','actual_amount'])`.
A record survives preprocessing iff none of those four columns is NaN. -/
def surviving (r : TransferRecord) : Bool :=
  r.from_address.isSome && r.to_address.isSome &&
    r.amount.isSome && (actual_amount r).isSome

/-- The record filtering performed by `_preprocess_data` (line 156). -/
def preprocess (rs : List TransferRecord) : List TransferRecord :=
  rs.filter surviving

/-- `actual_amount` of a record of the post-`dropna` frame; on that frame
the column is never NaN, so the `0` default is never read. -/
def tokensOf (r : TransferRecord) : ℚ :=
  (actual_amount r).getD 0

/-- `amount` of a record of the post-`dropna` frame (same remark). -/
def rawOf (r : TransferRecord) : ℚ :=
  r.amount.getD 0

/-- Lines 110-112 (also used at 141-142): pandas `sum` skips NaN. -/
def total_volume (rs : List TransferRecord) : ℚ :=
  (rs.filterMap actual_amount).sum

/-- Line 111: `self.df['actual_amount'].max()`; pandas `max` skips NaN.
The `0` initial value stands for the empty column (NaN in pandas),
unused under the non-emptiness hypotheses of the theorems below. -/
def max_single_amount (rs : List TransferRecord) : ℚ :=
  (rs.filterMap actual_amount).foldr max 0

/-- Line 112: `len(set(from_address.unique()) | set(to_address.unique()))`,
the number of distinct values appearing in either address column
(a missing-address marker counts as a value, as NaN does in pandas). -/
def unique_address_count (rs : List TransferRecord) : ℕ :=
  ((rs.map TransferRecord.from_address) ++ (rs.map TransferRecord.to_address)).dedup.length

/-- Line 119: `'pump' in token_address.lower()` — the lowercased token
address holds the substring `pump` iff splitting on it gives more
than one piece. -/
def isPumpToken (token_address : String) : Bool :=
  (token_address.toLower.splitOn "pump").length > 1

/-- Lines 119-124: the estimation multiplier, 50 for pump.fun-style
tokens and 20 otherwise. -/
def estimated_multiplier (token_address : String) : ℚ :=
  if isPumpToken token_address then 50 else 20

/-- Lines 127-133: the fallback supply estimate when no authoritative
metadata is available — `max(estimates)` over the three heuristics. -/
def estimated_token_supply_fallback (token_address : String)
    (rs : List TransferRecord) : ℚ :=
  max (max_single_amount rs * estimated_multiplier token_address)
    (max (total_volume rs * 10)
      (max_single_amount rs * (unique_address_count rs : ℚ) * 0.5))

/-- The per-address accumulator produced by the two `groupby` blocks of
`calculate_net_flows` (lines 173-215), with the `0` defaults for an
address absent from a group. -/
structure FlowAcc where
  inflow_tokens : ℚ
  inflow_raw_amount : ℚ
  inflow_value : ℚ
  inflow_count : ℕ
  outflow_tokens : ℚ
  outflow_raw_amount : ℚ
  outflow_value : ℚ
  outflow_count : ℕ
deriving Repr, DecidableEq

/-- The `groupby('to_address')` / `groupby('from_address')` sums and
counts for one address, over the preprocessed frame `rs`.  Token and
raw sums are pandas `sum` over the group (NaN-free columns after
`dropna`), `value` sums skip NaN (`value` is not in the `dropna`
subset), and `trans_id: 'count'` counts only non-null `trans_id`. -/
def flowAcc (rs : List TransferRecord) (a : String) : FlowAcc where
  inflow_tokens := ((rs.filter (fun r => r.to_address == some a)).map tokensOf).sum
  inflow_raw_amount := ((rs.filter (fun r => r.to_address == some a)).map rawOf).sum
  inflow_value := ((rs.filter (fun r => r.to_address == some a)).filterMap TransferRecord.value).sum
  inflow_count := (rs.filter (fun r => r.to_address == some a && r.trans_id.isSome)).length
  outflow_tokens := ((rs.filter (fun r => r.from_address == some a)).map tokensOf).sum
  outflow_raw_amount := ((rs.filter (fun r => r.from_address == some a)).map rawOf).sum
  outflow_value := ((rs.filter (fun r => r.from_address == some a)).filterMap TransferRecord.value).sum
  outflow_count := (rs.filter (fun r => r.from_address == some a && r.trans_id.isSome)).length

/-- Field-wise sum of two partial accumulators (the merge of the
map-reduce reading of the aggregation). -/
def mergeAcc (f g : FlowAcc) : FlowAcc where
  inflow_tokens := f.inflow_tokens + g.inflow_tokens
  inflow_raw_amount := f.inflow_raw_amount + g.inflow_raw_amount
  inflow_value := f.inflow_value + g.inflow_value
  inflow_count := f.inflow_count + g.inflow_count
  outflow_tokens := f.outflow_tokens + g.outflow_tokens
  outflow_raw_amount := f.outflow_raw_amount + g.outflow_raw_amount
  outflow_value := f.outflow_value + g.outflow_value
  outflow_count := f.outflow_count + g.outflow_count

/-- Line 199: `all_addresses = set(from_address.unique()) | set(to_address.unique())`
over the preprocessed frame (whose address columns are NaN-free). -/
def all_addresses (rs : List TransferRecord) : List String :=
  ((rs.filterMap TransferRecord.from_address) ++ (rs.filterMap TransferRecord.to_address)).dedup

/-- Lines 263-329, `_classify_address_type`: thresholds are fractions of
the estimated supply (`0.001`, `0.0005`, `0.0001` are exact rationals
here), the activity threshold is 10 transactions, and `max_position`
is the maximum of the absolute inflow and outflow (`max(abs(..), abs(..))`). -/
def classify_address_type (estimated_token_supply net_tokens inflow_tokens outflow_tokens : ℚ)
    (total_transactions : ℕ) : String :=
  let whale_threshold := estimated_token_supply * 0.001
  let large_holder_threshold := estimated_token_supply * 0.0005
  let medium_threshold := estimated_token_supply * 0.0001
  let active_threshold : ℕ := 10
  let max_position := max |inflow_tokens| |outflow_tokens|
  if total_transactions ≥ active_threshold then
    if |net_tokens| < whale_threshold * 0.1 then
      if max_position ≥ whale_threshold then "大型做市商"
      else "做市商/套利者"
    else if |net_tokens| ≥ whale_threshold then
      if net_tokens > 0 then "鲸鱼买入" else "鲸鱼卖出"
    else if |net_tokens| ≥ large_holder_threshold then
      if net_tokens > 0 then "大买家" else "大卖家"
    else if net_tokens > 0 then "活跃买家"
    else "活跃卖家"
  else
    if |net_tokens| ≥ whale_threshold then
      if net_tokens > 0 then "鲸鱼买入" else "鲸鱼卖出"
    else if |net_tokens| ≥ large_holder_threshold then
      if net_tokens > 0 then "大户买入" else "大户卖出"
    else if |net_tokens| ≥ medium_threshold then
      if net_tokens > 0 then "中等买家" else "中等卖家"
    else if net_tokens > 0 then "普通买家"
    else if net_tokens < 0 then "普通卖家"
    else "无净流动"

/-- Lines 223-228: the source's `flow_ratio`, with `none` standing for
the `float('inf')` of the inflow-only case. -/
def tokens_ratio (inflow_tokens outflow_tokens : ℚ) : Option ℚ :=
  if outflow_tokens > 0 then some (inflow_tokens / outflow_tokens)
  else if inflow_tokens > 0 then none
  else some 0

/-- One row of `net_flows_df` (lines 230-245). -/
structure AddressFlowRow where
  address : String
  acc : FlowAcc
  net_tokens : ℚ
  net_value : ℚ
  total_transactions : ℕ
  ratio : Option ℚ
  address_type : String
deriving Repr, DecidableEq

/-- Lines 204-245: the row `calculate_net_flows` builds for one address
from its accumulated flows, under the analyzer's estimated supply. -/
def mkRow (estimated_token_supply : ℚ) (a : String) (f : FlowAcc) : AddressFlowRow where
  address := a
  acc := f
  net_tokens := f.inflow_tokens - f.outflow_tokens
  net_value := f.inflow_value - f.outflow_value
  total_transactions := f.inflow_count + f.outflow_count
  ratio := tokens_ratio f.inflow_tokens f.outflow_tokens
  address_type := classify_address_type estimated_token_supply
    (f.inflow_tokens - f.outflow_tokens) f.inflow_tokens f.outflow_tokens
    (f.inflow_count + f.outflow_count)

/-- `calculate_net_flows` as a map from addresses of the preprocessed
frame to their rows. -/
def calculate_net_flows (estimated_token_supply : ℚ)
    (rs : List TransferRecord) (a : String) : AddressFlowRow :=
  mkRow estimated_token_supply a (flowAcc rs a)

/-! Transcriptions of the specification's own wording, kept separate
from the source-derived definitions above so the two can be compared. -/

/-- The spec's ordered decision policy, transcribed as written: first
match wins, with the market-maker split governed by
`max(inflow_tokens, outflow_tokens)` (no absolute values), thresholds
whale = 0.1%, large = 0.05%, medium = 0.01% of the estimated supply,
and the 10-transaction activity threshold.  Labels are the source's
strings: 大型做市商 = large market-maker, 做市商/套利者 =
market-maker/arbitrageur, 鲸鱼买入/鲸鱼卖出 = whale buy/sell,
大买家/大卖家 = large buyer/seller, 活跃买家/活跃卖家 = active
buyer/seller, 大户买入/大户卖出 = large-holder buy/sell,
中等买家/中等卖家 = medium buyer/seller, 普通买家/普通卖家 =
ordinary buyer/seller, 无净流动 = no net flow. -/
def spec_policy_label (estimated_supply net_tokens inflow_tokens outflow_tokens : ℚ)
    (total_transactions : ℕ) : String :=
  let whale := estimated_supply * 0.001
  let large := estimated_supply * 0.0005
  let medium := estimated_supply * 0.0001
  if total_transactions ≥ 10 then
    if |net_tokens| < whale * 0.1 ∧ max inflow_tokens outflow_tokens ≥ whale then
      "大型做市商"
    else if |net_tokens| < whale * 0.1 then "做市商/套利者"
    else if |net_tokens| ≥ whale then
      if net_tokens > 0 then "鲸鱼买入" else "鲸鱼卖出"
    else if |net_tokens| ≥ large then
      if net_tokens > 0 then "大买家" else "大卖家"
    else if net_tokens > 0 then "活跃买家"
    else "活跃卖家"
  else
    if |net_tokens| ≥ whale then
      if net_tokens > 0 then "鲸鱼买入" else "鲸鱼卖出"
    else if |net_tokens| ≥ large then
      if net_tokens > 0 then "大户买入" else "大户卖出"
    else if |net_tokens| ≥ medium then
      if net_tokens > 0 then "中等买家" else "中等卖家"
    else if net_tokens > 0 then "普通买家"
    else if net_tokens < 0 then "普通卖家"
    else "无净流动"

/-- The same policy with the market-maker split amended to use
`max(|inflow_tokens|, |outflow_tokens|)`, which is what the source's
`max_position` computes. -/
def spec_policy_label_abs (estimated_supply net_tokens inflow_tokens outflow_tokens : ℚ)
    (total_transactions : ℕ) : String :=
  let whale := estimated_supply * 0.001
  let large := estimated_supply * 0.0005
  let medium := estimated_supply * 0.0001
  if total_transactions ≥ 10 then
    if |net_tokens| < whale * 0.1 ∧ max |inflow_tokens| |outflow_tokens| ≥ whale then
      "大型做市商"
    else if |net_tokens| < whale * 0.1 then "做市商/套利者"
    else if |net_tokens| ≥ whale then
      if net_tokens > 0 then "鲸鱼买入" else "鲸鱼卖出"
    else if |net_tokens| ≥ large then
      if net_tokens > 0 then "大买家" else "大卖家"
    else if net_tokens > 0 then "活跃买家"
    else "活跃卖家"
  else
    if |net_tokens| ≥ whale then
      if net_tokens > 0 then "鲸鱼买入" else "鲸鱼卖出"
    else if |net_tokens| ≥ large then
      if net_tokens > 0 then "大户买入" else "大户卖出"
    else if |net_tokens| ≥ medium then
      if net_tokens > 0 then "中等买家" else "中等卖家"
    else if net_tokens > 0 then "普通买家"
    else if net_tokens < 0 then "普通卖家"
    else "无净流动"

/-- The record-skipping rule as the spec words it: a record is skipped
iff it is missing `from_address`, missing `to_address`, has a missing
or malformed amount, or has a non-positive amount. -/
def spec_skip (r : TransferRecord) : Bool :=
  r.from_address.isNone || r.to_address.isNone ||
    (match r.amount with
     | none => true
     | some q => decide (q ≤ 0))

/-! Concrete records used in the scenario theorems: the spec's
two-transfer scenario (A sends B 100 tokens, B sends A 30 tokens,
6 decimals, raw amounts scaled by 10^6), and a well-formed record
with a negative amount. -/

/-- Scenario record: A sends B 100 tokens, raw amount 100·10^6, 6 decimals. -/
def rAB : TransferRecord :=
  ⟨some "A", some "B", some 100000000, some 6, some 1, some "t1"⟩

/-- Scenario record: B sends A 30 tokens, raw amount 30·10^6, 6 decimals. -/
def rBA : TransferRecord :=
  ⟨some "B", some "A", some 30000000, some 6, some 1, some "t2"⟩

/-- A record with all fields present but a negative amount. -/
def rNonPos : TransferRecord :=
  ⟨some "A", some "B", some (-5), some 6, some 1, some "t3"⟩

/-- Every element of a list is at most its `foldr max` over any
initial value. -/
theorem le_foldr_max (l : List ℚ) (x init : ℚ) (hx : x ∈ l) :
    x ≤ l.foldr max init := by
  induction l with
  | nil => cases hx
  | cons a t ih =>
    rcases List.mem_cons.mp hx with rfl | hmem
    · exact le_max_left _ _
    · exact le_trans (ih hmem) (le_max_right _ _)

/-- C1 counterexample: at supply 1000000 (whale threshold 1000), net 0,
inflow −2000, outflow 0 and 10 transactions, the source classifier uses
`max(|inflow|, |outflow|) = 2000 ≥ 1000` and answers 大型做市商 (large
market-maker), while the claim's `max(inflow, outflow) = 0 < 1000`
prescribes 做市商/套利者 (market-maker/arbitrageur). -/
theorem C1_policy_counterexample :
    classify_address_type 1000000 0 (-2000) 0 10 ≠
      spec_policy_label 1000000 0 (-2000) 0 10 := by
  norm_num [classify_address_type, spec_policy_label]
  decide

/-- Claim C1, amended: for every input and every positive estimated
supply, `_classify_address_type` returns exactly the label of the
spec's ordered decision policy once the market-maker split is read
with `max(|inflow_tokens|, |outflow_tokens|)` (the source's
`max_position`) in place of `max(inflow_tokens, outflow_tokens)`. -/
theorem C1_classifier_matches_policy
    (s n i o : ℚ) (t : ℕ) (_hs : 0 < s) :
    classify_address_type s n i o t = spec_policy_label_abs s n i o t := by
  unfold classify_address_type spec_policy_label_abs
  dsimp only
  split_ifs <;> first | rfl | tauto

/-- C1 witness: the amended policy at the spec's whale-buy scenario
(supply 1000000, net 2000, 15 transactions). -/
theorem C1_classifier_matches_policy_witness :
    classify_address_type 1000000 2000 2500 500 15 =
      spec_policy_label_abs 1000000 2000 2500 500 15 :=
  C1_classifier_matches_policy 1000000 2000 2500 500 15 (by norm_num)

/-- C2: the code at the claimed zero-total-flow input — net 0, inflow 0,
outflow 0, 12 transactions — answers 做市商/套利者
(market-maker/arbitrageur), not 无净流动 (no net flow): the classifier
has no zero-activity short-circuit, which the repository's own check
scripts flag as a defect. -/
theorem C2_zero_flow_gets_marketmaker_label :
    classify_address_type 1000000 0 0 0 12 = "做市商/套利者" := by
  norm_num [classify_address_type]

/-- Claim C5: in every row produced by `calculate_net_flows`,
`net_tokens` is exactly the row's inflow minus outflow in tokens, and
`total_transactions` is exactly the sum of the inflow and outflow
counts. -/
theorem C5_row_invariants (s : ℚ) (rs : List TransferRecord) (a : String) :
    (calculate_net_flows s rs a).net_tokens =
        (calculate_net_flows s rs a).acc.inflow_tokens -
          (calculate_net_flows s rs a).acc.outflow_tokens
    ∧ (calculate_net_flows s rs a).total_transactions =
        (calculate_net_flows s rs a).acc.inflow_count +
          (calculate_net_flows s rs a).acc.outflow_count :=
  ⟨rfl, rfl⟩

/-- Claim C9: the classifier is deterministic — equal argument tuples
`(net, inflow, outflow, transactions, supply)` give equal labels; the
embedding takes exactly these five arguments, so no other state can
enter. -/
theorem C9_classifier_deterministic
    (s s' n n' i i' o o' : ℚ) (t t' : ℕ)
    (hs : s = s') (hn : n = n') (hi : i = i') (ho : o = o') (ht : t = t') :
    classify_address_type s n i o t = classify_address_type s' n' i' o' t' := by
  subst hs hn hi ho ht; rfl

/-- C9 witness: determinism instantiated at a concrete tuple. -/
theorem C9_classifier_deterministic_witness :
    classify_address_type 1000000 2000 2500 500 15 =
      classify_address_type 1000000 2000 2500 500 15 :=
  C9_classifier_deterministic 1000000 1000000 2000 2000 2500 2500 500 500 15 15
    rfl rfl rfl rfl rfl

/-- C3 counterexample: a record with both addresses present and a
numeric but negative amount is skipped according to the claim
(`spec_skip`), yet it survives the source's `dropna` and is counted
into the receiver's inflow. -/
theorem C3_skip_counterexample :
    spec_skip rNonPos = true ∧ surviving rNonPos = true ∧
      preprocess [rNonPos] = [rNonPos] ∧
      (flowAcc (preprocess [rNonPos]) "B").inflow_count = 1 := by
  refine ⟨?_, rfl, rfl, rfl⟩
  norm_num [spec_skip, rNonPos]

/-- Claim C3, amended: preprocessing skips exactly the records missing
`from_address`, missing `to_address`, or with a missing or malformed
(non-numeric) `amount` or `token_decimals`; records with non-positive
amounts are kept.  A skipped record contributes to no address's flows,
counts, or USD totals, and to no address's presence in the output. -/
theorem C3_skip_amended (r : TransferRecord) (rs : List TransferRecord) (a : String) :
    (surviving r = false ↔
      (r.from_address = none ∨ r.to_address = none ∨
        r.amount = none ∨ r.token_decimals = none))
    ∧ (surviving r = false →
        preprocess (r :: rs) = preprocess rs ∧
          flowAcc (preprocess (r :: rs)) a = flowAcc (preprocess rs) a ∧
          all_addresses (preprocess (r :: rs)) = all_addresses (preprocess rs)) := by
  constructor
  · rcases r with ⟨f, t, am, d, v, tid⟩
    cases f <;> cases t <;> cases am <;> cases d <;>
      simp [surviving, actual_amount]
  · intro h
    have hp : preprocess (r :: rs) = preprocess rs := by
      simp [preprocess, List.filter_cons, h]
    exact ⟨hp, by rw [hp], by rw [hp]⟩

/-- C3 witness: the amended skip rule at a record missing its sender,
prepended to the two-transfer scenario. -/
theorem C3_skip_amended_witness :
    (surviving ⟨none, some "B", some 7, some 6, some 1, some "t"⟩ = false ↔
      ((⟨none, some "B", some 7, some 6, some 1, some "t"⟩ : TransferRecord).from_address = none ∨
        (⟨none, some "B", some 7, some 6, some 1, some "t"⟩ : TransferRecord).to_address = none ∨
        (⟨none, some "B", some 7, some 6, some 1, some "t"⟩ : TransferRecord).amount = none ∨
        (⟨none, some "B", some 7, some 6, some 1, some "t"⟩ : TransferRecord).token_decimals = none))
    ∧ (surviving ⟨none, some "B", some 7, some 6, some 1, some "t"⟩ = false →
        preprocess (⟨none, some "B", some 7, some 6, some 1, some "t"⟩ :: [rAB]) = preprocess [rAB] ∧
          flowAcc (preprocess (⟨none, some "B", some 7, some 6, some 1, some "t"⟩ :: [rAB])) "B" =
            flowAcc (preprocess [rAB]) "B" ∧
          all_addresses (preprocess (⟨none, some "B", some 7, some 6, some 1, some "t"⟩ :: [rAB])) =
            all_addresses (preprocess [rAB])) :=
  C3_skip_amended ⟨none, some "B", some 7, some 6, some 1, some "t"⟩ [rAB] "B"

/-- Claim C4: on the spec's two-transfer scenario (A sends B 100 tokens
and B sends A 30 tokens, raw amounts scaled by 10^6 with 6 decimals),
the aggregator gives A inflow 30, outflow 100, net −70, gives B inflow
100, outflow 30, net 70, and produces no other addresses. -/
theorem C4_two_transfer_scenario (s : ℚ) :
    (calculate_net_flows s (preprocess [rAB, rBA]) "A").acc.inflow_tokens = 30
    ∧ (calculate_net_flows s (preprocess [rAB, rBA]) "A").acc.outflow_tokens = 100
    ∧ (calculate_net_flows s (preprocess [rAB, rBA]) "A").net_tokens = -70
    ∧ (calculate_net_flows s (preprocess [rAB, rBA]) "B").acc.inflow_tokens = 100
    ∧ (calculate_net_flows s (preprocess [rAB, rBA]) "B").acc.outflow_tokens = 30
    ∧ (calculate_net_flows s (preprocess [rAB, rBA]) "B").net_tokens = 70
    ∧ all_addresses (preprocess [rAB, rBA]) = ["B", "A"] := by
  have hAin : (preprocess [rAB, rBA]).filter (fun r => r.to_address == some "A") = [rBA] := rfl
  have hAout : (preprocess [rAB, rBA]).filter (fun r => r.from_address == some "A") = [rAB] := rfl
  have hBin : (preprocess [rAB, rBA]).filter (fun r => r.to_address == some "B") = [rAB] := rfl
  have hBout : (preprocess [rAB, rBA]).filter (fun r => r.from_address == some "B") = [rBA] := rfl
  refine ⟨?_, ?_, ?_, ?_, ?_, ?_, rfl⟩ <;>
    simp only [calculate_net_flows, mkRow, flowAcc, hAin, hAout, hBin, hBout] <;>
    norm_num [tokensOf, actual_amount, rAB, rBA]

/-- Claim C6: an input with zero total transactions never receives a
market-maker label — the market-maker branch sits under the
high-frequency test, which zero transactions cannot pass. -/
theorem C6_no_marketmaker_when_inactive (s n i o : ℚ) (_hs : 0 < s) :
    classify_address_type s n i o 0 ≠ "大型做市商" ∧
      classify_address_type s n i o 0 ≠ "做市商/套利者" := by
  unfold classify_address_type
  dsimp only
  rw [if_neg (by omega)]
  constructor <;> split_ifs <;> decide

/-- C6 witness: zero transactions at supply 1000000 and all-zero flows. -/
theorem C6_no_marketmaker_when_inactive_witness :
    classify_address_type 1000000 0 0 0 0 ≠ "大型做市商" ∧
      classify_address_type 1000000 0 0 0 0 ≠ "做市商/套利者" :=
  C6_no_marketmaker_when_inactive 1000000 0 0 0 (by norm_num)

/-- Claim C7: the aggregation is order-independent — permuting the
record list changes no address's accumulator, row, or membership in
the address set — and splitting the records in two and merging the
partial accumulators field-wise agrees with aggregating all at once. -/
theorem C7_order_independence (rs rs' rs1 rs2 : List TransferRecord)
    (s : ℚ) (a : String) (hperm : rs.Perm rs') :
    flowAcc rs a = flowAcc rs' a
    ∧ calculate_net_flows s rs a = calculate_net_flows s rs' a
    ∧ (all_addresses rs).toFinset = (all_addresses rs').toFinset
    ∧ flowAcc (rs1 ++ rs2) a = mergeAcc (flowAcc rs1 a) (flowAcc rs2 a) := by
  have hacc : flowAcc rs a = flowAcc rs' a := by
    simp only [flowAcc, FlowAcc.mk.injEq]
    refine ⟨?_, ?_, ?_, ?_, ?_, ?_, ?_, ?_⟩ <;>
      first
        | exact ((hperm.filter _).map _).sum_eq
        | exact ((hperm.filter _).filterMap _).sum_eq
        | exact (hperm.filter _).length_eq
  refine ⟨hacc, congrArg (mkRow s a) hacc, ?_, ?_⟩
  · unfold all_addresses
    exact List.toFinset_eq_of_perm _ _
      ((hperm.filterMap _).append (hperm.filterMap _)).dedup
  · simp [flowAcc, mergeAcc, List.filter_append]

/-- C7 witness: the two-transfer scenario, its reversal, and its
two-piece partition. -/
theorem C7_order_independence_witness :
    flowAcc [rAB, rBA] "A" = flowAcc [rBA, rAB] "A"
    ∧ calculate_net_flows 5 [rAB, rBA] "A" = calculate_net_flows 5 [rBA, rAB] "A"
    ∧ (all_addresses [rAB, rBA]).toFinset = (all_addresses [rBA, rAB]).toFinset
    ∧ flowAcc ([rAB] ++ [rBA]) "A" = mergeAcc (flowAcc [rAB] "A") (flowAcc [rBA] "A") :=
  C7_order_independence [rAB, rBA] [rBA, rAB] [rAB] [rBA] 5 "A"
    (List.Perm.swap rBA rAB [])

/-- Claim C8: the fallback supply estimator is exactly the maximum of
the three heuristics — largest single transfer times the family
multiplier (50 for pump-style token addresses, 20 otherwise), total
volume times 10, and largest single transfer times half the unique
address count — and it is positive whenever some record has a positive
token amount. -/
theorem C8_supply_estimator (addr : String) (rs : List TransferRecord)
    (r : TransferRecord) (q : ℚ) (hmem : r ∈ rs)
    (hq : actual_amount r = some q) (hpos : 0 < q) :
    estimated_token_supply_fallback addr rs =
      max (max_single_amount rs * estimated_multiplier addr)
        (max (total_volume rs * 10)
          (max_single_amount rs * (unique_address_count rs : ℚ) * 0.5))
    ∧ estimated_multiplier addr = (if isPumpToken addr then 50 else 20)
    ∧ 0 < estimated_token_supply_fallback addr rs := by
  refine ⟨rfl, rfl, ?_⟩
  have hq_mem : q ∈ rs.filterMap actual_amount :=
    List.mem_filterMap.mpr ⟨r, hmem, hq⟩
  have hmax : q ≤ max_single_amount rs := le_foldr_max _ _ _ hq_mem
  have hmult : (0 : ℚ) < estimated_multiplier addr := by
    unfold estimated_multiplier; split_ifs <;> norm_num
  have hA : (0 : ℚ) < max_single_amount rs * estimated_multiplier addr :=
    mul_pos (lt_of_lt_of_le hpos hmax) hmult
  exact lt_of_lt_of_le hA (le_max_left _ _)

/-- C8 witness: a single 100-token transfer under a non-pump token
address. -/
theorem C8_supply_estimator_witness :
    0 < estimated_token_supply_fallback "token" [rAB] :=
  (C8_supply_estimator "token" [rAB] rAB 100 (List.mem_singleton.mpr rfl)
      (by norm_num [actual_amount, rAB]) (by norm_num)).2.2

/-- Claim C10: when every surviving record carries a non-null
`trans_id`, every address of the aggregator's output has at least one
counted transaction — an address enters the output only as sender or
receiver of some surviving record. -/
theorem C10_output_rows_have_transactions (rs : List TransferRecord)
    (s : ℚ) (a : String)
    (htid : ∀ r ∈ preprocess rs, r.trans_id.isSome = true)
    (ha : a ∈ all_addresses (preprocess rs)) :
    1 ≤ (calculate_net_flows s (preprocess rs) a).total_transactions := by
  have htot : (calculate_net_flows s (preprocess rs) a).total_transactions =
      (flowAcc (preprocess rs) a).inflow_count +
        (flowAcc (preprocess rs) a).outflow_count := rfl
  rw [htot]
  unfold all_addresses at ha
  rw [List.mem_dedup, List.mem_append] at ha
  rcases ha with hfrom | hto
  · obtain ⟨r, hr, hra⟩ := List.mem_filterMap.mp hfrom
    have hp : r ∈ (preprocess rs).filter
        (fun x => x.from_address == some a && x.trans_id.isSome) :=
      List.mem_filter.mpr ⟨hr, by simp [hra, htid r hr]⟩
    have hlen : 1 ≤ (flowAcc (preprocess rs) a).outflow_count :=
      List.length_pos_of_mem hp
    omega
  · obtain ⟨r, hr, hra⟩ := List.mem_filterMap.mp hto
    have hp : r ∈ (preprocess rs).filter
        (fun x => x.to_address == some a && x.trans_id.isSome) :=
      List.mem_filter.mpr ⟨hr, by simp [hra, htid r hr]⟩
    have hlen : 1 ≤ (flowAcc (preprocess rs) a).inflow_count :=
      List.length_pos_of_mem hp
    omega

/-- C10 witness: the single surviving transfer from A to B. -/
theorem C10_output_rows_have_transactions_witness :
    1 ≤ (calculate_net_flows 5 (preprocess [rAB]) "A").total_transactions :=
  C10_output_rows_have_transactions [rAB] 5 "A" (by decide) (by decide)

end TokenFlow
